import Mathlib

/-
  Shallow embedding of src/CSVDataValidator.py.

  The Python class CSVDataValidator holds a configuration (name, per-field
  validator dictionary) plus two mutable dictionaries (badFieldCounters,
  fieldNames).  We split this into an immutable `RuleSet` (the configuration)
  and a `ValidatorState` (the mutable dictionaries), threaded explicitly.

  Python behaviours modelled explicitly:
  * `sys.exit` inside `validateField` (unknown validator type) and the
    uncaught `ValueError` raised by `int(digit)` on a non-digit character in
    `validateABAChecksum` both terminate the process; they are modelled as
    `Except.error` results propagated out of row validation.
  * `str.strip()` is modelled by `pyStrip` (leading and trailing whitespace
    characters removed).
  * A compiled regular expression is abstracted as a predicate `matchFn`
    giving the result of `compiledRegex.match(field) != None`; no claim
    depends on the shape of a particular pattern.
  * Dictionary entries that a validator kind does not use are given default
    values in the structure; the source configurations always supply the
    keys their kind reads.
-/

/-- Models Python `str.strip()` (line 206): remove leading and trailing
whitespace characters. -/
def pyStrip (s : String) : String :=
  String.mk (((s.data.dropWhile Char.isWhitespace).reverse.dropWhile Char.isWhitespace).reverse)

/-- One entry of the per-field validator dictionary (configuration section,
lines 280-288 and 313-343): a kind tag `type`, the `allowEmptyFields` flag,
and the kind-specific parameters. -/
structure FieldValidator where
  type : String
  allowEmptyFields : Bool
  strings : List String := []
  matchFn : String → Bool := fun _ => false
  checkNumeric : Bool := false
  range : Int × Int := (0, -1)
  validate : Bool := false

/-- Models `CSVDataValidator.validateString` (lines 64-77). -/
def validateString (fieldValidator : FieldValidator) (field : String) : Bool :=
  if field.length = 0 then
    if fieldValidator.allowEmptyFields = false then false else true
  else if fieldValidator.strings.contains field then false
  else true

/-- Models `CSVDataValidator.validateRegex` (lines 79-92); the compiled
pattern is abstracted by `matchFn`. -/
def validateRegex (fieldValidator : FieldValidator) (field : String) : Bool :=
  if field.length = 0 then
    if fieldValidator.allowEmptyFields = false then false else true
  else if fieldValidator.matchFn field = false then false
  else true

/-- Models Python `int(c)` for a single character: the digit value, or `none`
for the `ValueError` raised on a non-digit. -/
def digitVal (c : Char) : Option Nat :=
  if c.isDigit then some (c.toNat - 48) else none

/-- Models the list comprehension `[int(digit) for digit in field]`
(line 115): all digit values, or `none` if any character raises. -/
def digitList : List Char → Option (List Nat)
  | [] => some []
  | c :: cs =>
    match digitVal c, digitList cs with
    | some d, some ds => some (d :: ds)
    | _, _ => none

/-- The digit values of a string, or `none` when a `ValueError` is raised. -/
def digitsOf (field : String) : Option (List Nat) :=
  digitList field.data

/-- Models `CSVDataValidator.validateABAChecksum` (lines 94-122).  A `none`
result is the uncaught `ValueError` from `int(digit)` on a non-digit. -/
def validateABAChecksum (fieldValidator : FieldValidator) (field : String) : Option Bool :=
  if field.length = 0 then
    some (if fieldValidator.allowEmptyFields = false then false else true)
  else if fieldValidator.validate then
    if field.length ≠ 9 then some false
    else
      match digitsOf field with
      | none => none
      | some d =>
        if (3 * (d.getD 0 0 + d.getD 3 0 + d.getD 6 0) +
            7 * (d.getD 1 0 + d.getD 4 0 + d.getD 7 0) +
            (d.getD 2 0 + d.getD 5 0 + d.getD 8 0)) % 10 ≠ 0 then some false
        else some true
  else some true

/-- Models Python `str.isdigit()` restricted to ASCII digits: nonempty and
all characters are digits (line 138). -/
def strIsdigit (s : String) : Bool :=
  decide (0 < s.length) && s.data.all Char.isDigit

/-- Models `CSVDataValidator.validateLength` (lines 124-154). -/
def validateLength (fieldValidator : FieldValidator) (field : String) : Bool :=
  if field.length = 0 then
    if fieldValidator.allowEmptyFields = false then false else true
  else if fieldValidator.checkNumeric = true ∧ 0 < field.length ∧ strIsdigit field ≠ true then
    false
  else if fieldValidator.range.1 ≠ 0 ∧ (field.length : Int) < fieldValidator.range.1 then
    false
  else if fieldValidator.range.2 ≠ -1 ∧ fieldValidator.range.2 < (field.length : Int) then
    false
  else true

/-- The immutable configuration of one `CSVDataValidator` instance: its name
and the field-number-indexed validator dictionary (lines 36-39). -/
structure RuleSet where
  name : String
  validators : List (Nat × FieldValidator)

/-- `self.numFields = len(self.validators)` (line 39). -/
def numFields (v : RuleSet) : Nat := v.validators.length

/-- `self.maxEmptyFields = self.numFields - 1` (line 40), Python integer
arithmetic. -/
def maxEmptyFields (v : RuleSet) : Int := (numFields v : Int) - 1

/-- The mutable dictionaries of a `CSVDataValidator` instance:
`badFieldCounters` (line 41, all counters start at 0) and `fieldNames`
(line 42, populated by `getHeaderNames`). -/
structure ValidatorState where
  badFieldCounters : Nat → Nat
  fieldNames : Nat → Option String

/-- State right after `__init__` (lines 41-46): every counter 0, no field
names. -/
def initState : ValidatorState :=
  { badFieldCounters := fun _ => 0, fieldNames := fun _ => none }

/-- Models `CSVDataValidator.getHeaderNames` (lines 57-61): store each header
cell under its index. -/
def getHeaderNames (s : ValidatorState) (row : List String) : ValidatorState :=
  { s with
    fieldNames := fun index =>
      if index < row.length then some (row.getD index "") else s.fieldNames index }

/-- Models `CSVDataValidator.validateField` (lines 156-179).  The
`sys.exit("ERROR!! BAD Validator Type...")` on an unknown kind is an
`Except.error`. -/
def validateField (v : RuleSet) (fieldIndex : Nat) (field : String) : Except String Bool :=
  match v.validators.lookup fieldIndex with
  | none => .ok true
  | some fieldValidator =>
    if fieldValidator.type = "str" then .ok (validateString fieldValidator field)
    else if fieldValidator.type = "re" then .ok (validateRegex fieldValidator field)
    else if fieldValidator.type = "len" then .ok (validateLength fieldValidator field)
    else if fieldValidator.type = "aba" then
      match validateABAChecksum fieldValidator field with
      | some b => .ok b
      | none => .error "ValueError: invalid literal for int() with base 10"
    else .error ("ERROR!! BAD Validator Type" ++ fieldValidator.type)

/-- The `for index in range(len(row))` loop of `validateRow` (lines 203-218),
structurally recursive over the remaining fields; `index` is the position of
the head field in the full row and `numEmptyFields` the running count. -/
def validateRowLoop (v : RuleSet) :
    List String → Nat → Int → ValidatorState → ValidatorState × Except String Int
  | [], _, _, s => (s, .ok (-1))
  | rawField :: rest, index, numEmptyFields, s =>
    match validateField v index (pyStrip rawField) with
    | .error e => (s, .error e)
    | .ok ok =>
      if ok = false then
        ({ s with
            badFieldCounters := fun j =>
              if j = index then s.badFieldCounters index + 1 else s.badFieldCounters j },
          .ok (index : Int))
      else if (pyStrip rawField).length = 0 then
        if maxEmptyFields v ≤ numEmptyFields + 1 then (s, .ok (-3))
        else validateRowLoop v rest (index + 1) (numEmptyFields + 1) s
      else validateRowLoop v rest (index + 1) numEmptyFields s

/-- Models `CSVDataValidator.validateRow` (lines 181-221) with the mutable
state passed explicitly.  Outcomes: `-1` accepted, `-2` wrong number of
fields, `-3` too many empty fields, `i ≥ 0` first failing field. -/
def validateRowS (v : RuleSet) (s : ValidatorState) (row : List String) :
    ValidatorState × Except String Int :=
  if v.name = "novalidate" then (s, .ok (-1))
  else if row.length ≠ v.validators.length then (s, .ok (-2))
  else validateRowLoop v row 0 0 s

/-- The outcome of `validateRow` alone (its return value, line 184-188). -/
def validateRow (v : RuleSet) (row : List String) : Except String Int :=
  (validateRowS v initState row).2

/-- Models the header-column-count check of the runner (lines 379-381): `true`
when the run proceeds, `false` when it exits. -/
def headerCountOk (v : RuleSet) (headerRow : List String) : Bool :=
  v.name == "novalidate" || headerRow.length == v.validators.length

/-- Models the error-message column appended on a `FieldFailed` rejection
(lines 416-419): the choice between the raw value and the literal "EMPTY" is
made on the raw, untrimmed field. -/
def fieldFailedMessage (fieldName rawField : String) : String :=
  if 0 < rawField.length then
    "BAD DATA IN FIELD: " ++ fieldName ++ " VALUE: " ++ rawField
  else
    "BAD DATA IN FIELD: " ++ fieldName ++ " VALUE: EMPTY"

/-- Models the main row loop (lines 398-420): validate each row in order,
recording the outcomes; a `sys.exit`/uncaught exception aborts the run,
leaving the remaining rows unprocessed. -/
def runRows (v : RuleSet) : ValidatorState → List (List String) →
    ValidatorState × List Int × Option String
  | s, [] => (s, [], none)
  | s, row :: rest =>
    match validateRowS v s row with
    | (s', .ok n) =>
      let r := runRows v s' rest
      (r.1, n :: r.2.1, r.2.2)
    | (s', .error e) => (s', [], some e)

/-- Number of fields of a row that strip to the empty string. -/
def countEmptyTrim (l : List String) : Nat :=
  l.countP (fun rawField => (pyStrip rawField).length == 0)

/- Concrete fixtures used as inputs of witnesses and counterexamples. -/

/-- A string-blocklist validator with an empty blocklist that allows empty
fields (shape of the `"str"` entries of the source configuration). -/
def strPassAllow : FieldValidator := { type := "str", allowEmptyFields := true }

/-- A string-blocklist validator with an empty blocklist that rejects empty
fields (field 0 of the `employee` configuration, line 318). -/
def strNoEmpty : FieldValidator := { type := "str", allowEmptyFields := false }

/-- A string-blocklist validator that rejects the exact value "x". -/
def strBlockX : FieldValidator :=
  { type := "str", allowEmptyFields := true, strings := ["x"] }

/-- A string-blocklist validator that rejects "x" and empty fields. -/
def strBlockXStrict : FieldValidator :=
  { type := "str", allowEmptyFields := false, strings := ["x"] }

/-- The ABA validator of the `employee` configuration (line 320). -/
def abaOn : FieldValidator := { type := "aba", allowEmptyFields := true, validate := true }

/-- A validator entry with an unknown kind tag. -/
def unknownKindValidator : FieldValidator := { type := "xyz", allowEmptyFields := false }

/-- A two-field rule set whose rules pass everything. -/
def pairSet : RuleSet := { name := "pair", validators := [(0, strPassAllow), (1, strPassAllow)] }

/-- A one-field rule set whose single rule rejects empty fields. -/
def oneFieldSet : RuleSet := { name := "one", validators := [(0, strNoEmpty)] }

/-- A two-field rule set whose second rule rejects the value "x". -/
def firstFailSet : RuleSet := { name := "pairx", validators := [(0, strPassAllow), (1, strBlockX)] }

/-- A two-field rule set with an unknown-kind rule at position 1. -/
def badKindSet : RuleSet :=
  { name := "bad", validators := [(0, strBlockXStrict), (1, unknownKindValidator)] }

/-- A one-field rule set holding the checksum-enabled ABA validator. -/
def abaSet : RuleSet := { name := "abaonly", validators := [(0, abaOn)] }

/-- The `novalidate` rule set of the source configuration (line 306). -/
def noValidateValidator : RuleSet := { name := "novalidate", validators := [] }

/-- Decidable equality for `Except`, needed to evaluate validator outcomes on
concrete inputs. -/
instance {ε : Type} {α : Type} [DecidableEq ε] [DecidableEq α] : DecidableEq (Except ε α) :=
  fun x y =>
    match x, y with
    | .error a, .error b =>
      if h : a = b then isTrue (by rw [h]) else
        isFalse (by intro hh; injection hh with h2; exact h h2)
    | .ok a, .ok b =>
      if h : a = b then isTrue (by rw [h]) else
        isFalse (by intro hh; injection hh with h2; exact h h2)
    | .error _, .ok _ => isFalse (by intro hh; exact Except.noConfusion hh)
    | .ok _, .error _ => isFalse (by intro hh; exact Except.noConfusion hh)

lemma countEmptyTrim_cons (f : String) (l : List String) :
    countEmptyTrim (f :: l) =
      countEmptyTrim l + (if (pyStrip f).length = 0 then 1 else 0) := by
  simp [countEmptyTrim, List.countP_cons]

/-- Loop invariant: when every remaining field passes its rule, the loop
returns -3 as soon as the running empty count reaches `maxEmptyFields`, and
-1 otherwise, leaving the state unchanged. -/
lemma validateRowLoop_all_pass (v : RuleSet) (l : List String) :
    ∀ (index : Nat) (acc : Int) (s : ValidatorState),
    (∀ k, k < l.length → validateField v (index + k) (pyStrip (l.getD k "")) = .ok true) →
    validateRowLoop v l index acc s =
      (s, .ok (if 1 ≤ countEmptyTrim l ∧ maxEmptyFields v ≤ acc + (countEmptyTrim l : Int)
               then -3 else -1)) := by
  induction l with
  | nil =>
    intro index acc s _
    simp [validateRowLoop, countEmptyTrim]
  | cons f rest ih =>
    intro index acc s h
    have h0 : validateField v index (pyStrip f) = .ok true := by
      simpa using h 0 (by simp)
    have hrest : ∀ k, k < rest.length →
        validateField v (index + 1 + k) (pyStrip (rest.getD k "")) = .ok true := by
      intro k hk
      have hh := h (k + 1) (by simpa using Nat.succ_lt_succ hk)
      have e : index + (k + 1) = index + 1 + k := by omega
      simpa [e] using hh
    rw [validateRowLoop, h0]
    simp only [reduceCtorEq, Bool.true_eq_false, if_false, countEmptyTrim_cons]
    by_cases he : (pyStrip f).length = 0
    · rw [if_pos he]
      by_cases hm : maxEmptyFields v ≤ acc + 1
      · rw [if_pos hm]
        have : (1 ≤ countEmptyTrim rest + (if (pyStrip f).length = 0 then 1 else 0) ∧
            maxEmptyFields v ≤ acc +
              ((countEmptyTrim rest + (if (pyStrip f).length = 0 then 1 else 0) : Nat) : Int)) := by
          rw [if_pos he]
          constructor
          · omega
          · push_cast
            omega
        rw [if_pos this]
      · rw [if_neg hm, ih (index + 1) (acc + 1) s hrest]
        rw [if_pos he]
        congr 1
        congr 1
        by_cases hc : maxEmptyFields v ≤ acc + 1 + (countEmptyTrim rest : Int)
        · rw [if_pos, if_pos]
          · constructor
            · omega
            · push_cast; omega
          · constructor
            · omega
            · omega
        · rw [if_neg, if_neg]
          · intro hcon
            apply hc
            push_cast at hcon
            omega
          · intro hcon
            apply hc
            omega
    · rw [if_neg he, ih (index + 1) acc s hrest, if_neg he]
      simp

/-- Loop invariant: if the fields before position `i` all pass and the empty
budget is not exhausted on them, the loop reaches position `i` and stops
there when the rule at `i` raises an error or fails. -/
lemma validateRowLoop_stops (v : RuleSet) (l : List String) :
    ∀ (index : Nat) (acc : Int) (s : ValidatorState) (i : Nat), i < l.length →
    (∀ k, k < i → validateField v (index + k) (pyStrip (l.getD k "")) = .ok true) →
    ¬(1 ≤ countEmptyTrim (l.take i) ∧
      maxEmptyFields v ≤ acc + (countEmptyTrim (l.take i) : Int)) →
    (∀ e, validateField v (index + i) (pyStrip (l.getD i "")) = .error e →
      validateRowLoop v l index acc s = (s, .error e)) ∧
    (validateField v (index + i) (pyStrip (l.getD i "")) = .ok false →
      (validateRowLoop v l index acc s).2 = .ok ((index + i : Nat) : Int)) := by
  induction l with
  | nil =>
    intro index acc s i hi
    exact absurd hi (by simp)
  | cons f rest ih =>
    intro index acc s i hi hpass hbudget
    cases i with
    | zero =>
      constructor
      · intro e herr
        have herr' : validateField v index (pyStrip f) = .error e := by simpa using herr
        rw [validateRowLoop, herr']
      · intro hfail
        have hfail' : validateField v index (pyStrip f) = .ok false := by simpa using hfail
        rw [validateRowLoop, hfail']
        simp
    | succ k =>
      have h0 : validateField v index (pyStrip f) = .ok true := by
        simpa using hpass 0 (by omega)
      have hrest : ∀ k2, k2 < k →
          validateField v (index + 1 + k2) (pyStrip (rest.getD k2 "")) = .ok true := by
        intro k2 hk2
        have hh := hpass (k2 + 1) (by omega)
        have e : index + (k2 + 1) = index + 1 + k2 := by omega
        simpa [e] using hh
      have hki : k < rest.length := by simpa using hi
      rw [validateRowLoop, h0]
      simp only [reduceCtorEq, Bool.true_eq_false, if_false]
      have htake : countEmptyTrim ((f :: rest).take (k + 1)) =
          countEmptyTrim (rest.take k) + (if (pyStrip f).length = 0 then 1 else 0) := by
        simp [List.take, countEmptyTrim_cons]
      by_cases he : (pyStrip f).length = 0
      · have hne : ¬ maxEmptyFields v ≤ acc + 1 := by
          intro hcon
          apply hbudget
          rw [htake, if_pos he]
          constructor
          · omega
          · push_cast
            omega
        rw [if_pos he, if_neg hne]
        have hbudget' : ¬(1 ≤ countEmptyTrim (rest.take k) ∧
            maxEmptyFields v ≤ (acc + 1) + (countEmptyTrim (rest.take k) : Int)) := by
          intro hcon
          apply hbudget
          rw [htake, if_pos he]
          constructor
          · omega
          · push_cast
            omega
        have hih := ih (index + 1) (acc + 1) s k hki hrest hbudget'
        constructor
        · intro e herr
          have herr' : validateField v (index + 1 + k) (pyStrip (rest.getD k "")) = .error e := by
            have e2 : index + (k + 1) = index + 1 + k := by omega
            simpa [e2] using herr
          exact hih.1 e herr'
        · intro hfail
          have hfail' : validateField v (index + 1 + k) (pyStrip (rest.getD k "")) = .ok false := by
            have e2 : index + (k + 1) = index + 1 + k := by omega
            simpa [e2] using hfail
          have := hih.2 hfail'
          rw [this]
          congr 2
          omega
      · rw [if_neg he]
        have hbudget' : ¬(1 ≤ countEmptyTrim (rest.take k) ∧
            maxEmptyFields v ≤ acc + (countEmptyTrim (rest.take k) : Int)) := by
          intro hcon
          apply hbudget
          rw [htake, if_neg he]
          constructor
          · omega
          · push_cast
            omega
        have hih := ih (index + 1) acc s k hki hrest hbudget'
        constructor
        · intro e herr
          have herr' : validateField v (index + 1 + k) (pyStrip (rest.getD k "")) = .error e := by
            have e2 : index + (k + 1) = index + 1 + k := by omega
            simpa [e2] using herr
          exact hih.1 e herr'
        · intro hfail
          have hfail' : validateField v (index + 1 + k) (pyStrip (rest.getD k "")) = .ok false := by
            have e2 : index + (k + 1) = index + 1 + k := by omega
            simpa [e2] using hfail
          have := hih.2 hfail'
          rw [this]
          congr 2
          omega

/-- Loop invariant for the state: the loop never touches `fieldNames`, leaves
the state unchanged on -1, -3 and on an error, and on a nonnegative result
`i` increments exactly the counter of position `i`. -/
lemma validateRowLoop_frame (v : RuleSet) (l : List String) :
    ∀ (index : Nat) (acc : Int) (s : ValidatorState),
    (validateRowLoop v l index acc s).1.fieldNames = s.fieldNames ∧
    (∀ n : Int, (validateRowLoop v l index acc s).2 = .ok n → n < 0 →
      (validateRowLoop v l index acc s).1 = s) ∧
    (∀ i : Nat, (validateRowLoop v l index acc s).2 = .ok ((i : Nat) : Int) →
      (validateRowLoop v l index acc s).1.badFieldCounters =
        fun j => if j = i then s.badFieldCounters i + 1 else s.badFieldCounters j) ∧
    (∀ e, (validateRowLoop v l index acc s).2 = .error e →
      (validateRowLoop v l index acc s).1 = s) := by
  induction l with
  | nil =>
    intro index acc s
    refine ⟨rfl, fun n _ _ => rfl, ?_, fun e he => by simp [validateRowLoop] at he⟩
    intro i hok
    rw [validateRowLoop] at hok
    simp at hok
  | cons f rest ih =>
    intro index acc s
    cases hvf : validateField v index (pyStrip f) with
    | error e =>
      refine ⟨?_, ?_, ?_, ?_⟩
      · rw [validateRowLoop, hvf]
      · intro n hok
        rw [validateRowLoop, hvf] at hok
        exact absurd hok (by simp)
      · intro i hok
        rw [validateRowLoop, hvf] at hok
        exact absurd hok (by simp)
      · intro e' _
        rw [validateRowLoop, hvf]
    | ok b =>
      cases b with
      | false =>
        refine ⟨?_, ?_, ?_, ?_⟩
        · rw [validateRowLoop, hvf]
          simp
        · intro n hok hneg
          rw [validateRowLoop, hvf] at hok
          simp at hok
          omega
        · intro i hok
          rw [validateRowLoop, hvf] at hok
          simp at hok
          have hii : index = i := by omega
          rw [validateRowLoop, hvf]
          simp [hii]
        · intro e herr
          rw [validateRowLoop, hvf] at herr
          exact absurd herr (by simp)
      | true =>
        by_cases he : (pyStrip f).length = 0
        · by_cases hm : maxEmptyFields v ≤ acc + 1
          · refine ⟨?_, ?_, ?_, ?_⟩
            · rw [validateRowLoop, hvf]
              simp [he, hm]
            · intro n _ _
              rw [validateRowLoop, hvf]
              simp [he, hm]
            · intro i hok
              rw [validateRowLoop, hvf] at hok
              simp [he, hm] at hok
            · intro e herr
              rw [validateRowLoop, hvf] at herr
              simp [he, hm] at herr
          · have hred : validateRowLoop v (f :: rest) index acc s =
                validateRowLoop v rest (index + 1) (acc + 1) s := by
              rw [validateRowLoop, hvf]
              simp [he, hm]
            rw [hred]
            exact ih (index + 1) (acc + 1) s
        · have hred : validateRowLoop v (f :: rest) index acc s =
              validateRowLoop v rest (index + 1) acc s := by
            rw [validateRowLoop, hvf]
            simp [he]
          rw [hred]
          exact ih (index + 1) acc s

/-- Claim C1, counterexample.  `pairSet` expects N = 2 fields.  The row
["a", ""] is shape-correct, every field passes its rule, and it has exactly
one (= N-1) trimmed-empty field, yet `validateRow` rejects it with -3
(RejectedTooManyEmptyFields) although the claim promises acceptance with at
most N-1 empty fields.  Moreover the all-empty one-field row under a rule
with `allowEmptyFields = false` is rejected with RejectedFieldFailed(0)
(result 0), governed by that flag, not with RejectedTooManyEmptyFields. -/
theorem emptyBudget_counterexample :
    validateField pairSet 0 (pyStrip (["a", ""].getD 0 "")) = .ok true ∧
    validateField pairSet 1 (pyStrip (["a", ""].getD 1 "")) = .ok true ∧
    countEmptyTrim ["a", ""] = 1 ∧
    numFields pairSet = 2 ∧
    validateRow pairSet ["a", ""] = .ok (-3) ∧
    validateRow oneFieldSet [""] = .ok 0 :=
  ⟨rfl, rfl, rfl, rfl, rfl, rfl⟩

/-- Claim C1, amended.  For every rule set other than "novalidate" with
expected field count N, on a shape-correct row all of whose trimmed fields
pass their rules, `validateRow` returns RejectedTooManyEmptyFields (-3)
exactly when the row has at least one trimmed-empty field and the number of
trimmed-empty fields is at least N-1 (so the budget actually tolerated is
N-2 empty fields), and Accepted (-1) otherwise; an all-empty row is thus
always rejected, but for a one-field rule set whose rule — of any of the
four kinds — has `allowEmptyFields = false` the all-empty row is rejected
with RejectedFieldFailed(0), governed by that flag. -/
theorem emptyBudget_spec :
    (∀ (v : RuleSet) (row : List String), v.name ≠ "novalidate" →
      row.length = v.validators.length →
      (∀ k, k < row.length → validateField v k (pyStrip (row.getD k "")) = .ok true) →
      validateRow v row =
        .ok (if 1 ≤ countEmptyTrim row ∧ maxEmptyFields v ≤ (countEmptyTrim row : Int)
             then -3 else -1)) ∧
    (∀ name : String, name ≠ "novalidate" →
      ∀ fv : FieldValidator,
      fv.type = "str" ∨ fv.type = "re" ∨ fv.type = "len" ∨ fv.type = "aba" →
      fv.allowEmptyFields = false →
      validateRow { name := name, validators := [(0, fv)] } [""] = .ok 0) := by
  constructor
  · intro v row hn hlen hpass
    have hpass' : ∀ k, k < row.length →
        validateField v (0 + k) (pyStrip (row.getD k "")) = .ok true := by
      intro k hk
      simpa using hpass k hk
    have hloop := validateRowLoop_all_pass v row 0 0 initState hpass'
    have hnlen : ¬ row.length ≠ v.validators.length := by omega
    simp only [validateRow, validateRowS, if_neg hn, if_neg hnlen, hloop]
    norm_num
  · intro name hn fv hkind hae
    rcases hkind with ht | ht | ht | ht <;>
      simp [validateRow, validateRowS, validateRowLoop, validateField, List.lookup,
            validateString, validateRegex, validateLength, validateABAChecksum,
            ht, hae, pyStrip, hn]

/-- Claim C1, witness: the amended theorem evaluated on concrete inputs. -/
theorem emptyBudget_spec_witness :
    validateRow pairSet ["a", ""] = .ok (-3) ∧ validateRow oneFieldSet [""] = .ok 0 := by
  constructor
  · have h := emptyBudget_spec.1 pairSet ["a", ""] (by decide) (by decide) (by decide)
    have e : (if 1 ≤ countEmptyTrim ["a", ""] ∧
        maxEmptyFields pairSet ≤ (countEmptyTrim ["a", ""] : Int)
        then (-3 : Int) else -1) = -3 := by decide
    rw [e] at h
    exact h
  · exact emptyBudget_spec.2 "one" (by decide) strNoEmpty (Or.inl rfl) rfl

/-- Claim C2 (confirmed).  For every rule kind and every setting of its
kind-specific parameters, the check applied to the empty string returns
exactly the `allowEmptyFields` flag; the empty-field pre-check precedes all
kind-specific logic (for the ABA kind the result is wrapped in `some`:
no crash is possible on the empty string). -/
theorem check_empty_spec (fv : FieldValidator) :
    validateString fv "" = fv.allowEmptyFields ∧
    validateRegex fv "" = fv.allowEmptyFields ∧
    validateLength fv "" = fv.allowEmptyFields ∧
    validateABAChecksum fv "" = some fv.allowEmptyFields := by
  have h0 : ("" : String).length = 0 := rfl
  cases h : fv.allowEmptyFields <;>
    simp [validateString, validateRegex, validateLength, validateABAChecksum, h0, h]

/-- Claim C2, witness: the theorem evaluated on a concrete validator. -/
theorem check_empty_spec_witness : validateString strNoEmpty "" = strNoEmpty.allowEmptyFields :=
  (check_empty_spec strNoEmpty).1

/-- Claim C3 (confirmed).  With `validate = true`: a nonempty field of
exactly 9 decimal digits passes iff the weighted sum
3*(d0+d3+d6) + 7*(d1+d4+d7) + (d2+d5+d8) is 0 mod 10; every nonempty field
whose length is not 9 fails; and the check accepts "490000018". -/
theorem aba_checksum_spec (fv : FieldValidator) (hv : fv.validate = true) :
    (∀ c0 c1 c2 c3 c4 c5 c6 c7 c8 : Char,
      c0.isDigit = true → c1.isDigit = true → c2.isDigit = true →
      c3.isDigit = true → c4.isDigit = true → c5.isDigit = true →
      c6.isDigit = true → c7.isDigit = true → c8.isDigit = true →
      (validateABAChecksum fv (String.mk [c0, c1, c2, c3, c4, c5, c6, c7, c8]) = some true ↔
        (3 * ((c0.toNat - 48) + (c3.toNat - 48) + (c6.toNat - 48)) +
         7 * ((c1.toNat - 48) + (c4.toNat - 48) + (c7.toNat - 48)) +
         ((c2.toNat - 48) + (c5.toNat - 48) + (c8.toNat - 48))) % 10 = 0)) ∧
    (∀ field : String, field.length ≠ 0 → field.length ≠ 9 →
      validateABAChecksum fv field = some false) ∧
    validateABAChecksum fv "490000018" = some true := by
  refine ⟨?_, ?_, ?_⟩
  · intro c0 c1 c2 c3 c4 c5 c6 c7 c8 h0 h1 h2 h3 h4 h5 h6 h7 h8
    have hlen : (String.mk [c0, c1, c2, c3, c4, c5, c6, c7, c8]).length = 9 := rfl
    have hdata : (String.mk [c0, c1, c2, c3, c4, c5, c6, c7, c8]).data =
        [c0, c1, c2, c3, c4, c5, c6, c7, c8] := rfl
    simp only [validateABAChecksum, hv, hlen, digitsOf, hdata, digitList, digitVal,
      h0, h1, h2, h3, h4, h5, h6, h7, h8, if_true]
    simp only [List.getD_cons_zero, List.getD_cons_succ]
    norm_num
  · intro field hne h9
    simp [validateABAChecksum, hv, hne, h9]
  · have hd : digitsOf "490000018" = some [4, 9, 0, 0, 0, 0, 0, 1, 8] := rfl
    have hlen : ("490000018" : String).length = 9 := rfl
    simp [validateABAChecksum, hv, hd, hlen]

/-- Claim C3, witness: the theorem evaluated on the checksum-enabled ABA
validator of the employee configuration. -/
theorem aba_checksum_spec_witness : validateABAChecksum abaOn "490000018" = some true :=
  (aba_checksum_spec abaOn rfl).2.2

/-- Claim C4 (code bug).  With `validate = true`, a nonempty 9-character
field containing a non-digit character does not return false: the Python
code raises an uncaught ValueError from `int(digit)` and crashes (modelled
as `none`, propagated by `validateField` as an error). -/
theorem aba_nondigit_crash :
    validateABAChecksum abaOn "12345678a" = none ∧
    validateField abaSet 0 "12345678a" =
      .error "ValueError: invalid literal for int() with base 10" :=
  ⟨rfl, rfl⟩

/-- Claim C5, counterexample.  In `firstFailSet` (two fields, the rule at
position 1 rejects "x"), on the row ["", "x"] position 1 is the lowest index
whose trimmed field fails its rule (position 0 passes), yet `validateRow`
returns -3: the empty-budget check at the strictly earlier index 0 fires
first, so the claimed unconditional RejectedFieldFailed(1) result is
false. -/
theorem first_failure_counterexample :
    validateField firstFailSet 0 (pyStrip (["", "x"].getD 0 "")) = .ok true ∧
    validateField firstFailSet 1 (pyStrip (["", "x"].getD 1 "")) = .ok false ∧
    validateRow firstFailSet ["", "x"] = .ok (-3) :=
  ⟨rfl, rfl, rfl⟩

/-- Claim C5, amended.  For a shape-correct row under a rule set other than
"novalidate", if position `i` is the lowest index whose trimmed field fails
its rule and the empty-field budget has not been exhausted at any strictly
earlier index, then `validateRow` returns RejectedFieldFailed(i); nothing
after position `i` is constrained, and a rule failure at `i` takes priority
over the emptiness of field `i` itself because the budget check runs
strictly after the rule check within the same iteration. -/
theorem first_failure_spec (v : RuleSet) (row : List String) (i : Nat)
    (hn : v.name ≠ "novalidate") (hlen : row.length = v.validators.length)
    (hi : i < row.length)
    (hfail : validateField v i (pyStrip (row.getD i "")) = .ok false)
    (hpass : ∀ k, k < i → validateField v k (pyStrip (row.getD k "")) = .ok true)
    (hbudget : ¬(1 ≤ countEmptyTrim (row.take i) ∧
                 maxEmptyFields v ≤ (countEmptyTrim (row.take i) : Int))) :
    validateRow v row = .ok ((i : Nat) : Int) := by
  have hpass' : ∀ k, k < i → validateField v (0 + k) (pyStrip (row.getD k "")) = .ok true := by
    intro k hk
    simpa using hpass k hk
  have hbudget' : ¬(1 ≤ countEmptyTrim (row.take i) ∧
      maxEmptyFields v ≤ 0 + (countEmptyTrim (row.take i) : Int)) := by
    simpa using hbudget
  have hstop := (validateRowLoop_stops v row 0 0 initState i hi hpass' hbudget').2
  have hfail' : validateField v (0 + i) (pyStrip (row.getD i "")) = .ok false := by
    simpa using hfail
  have hres := hstop hfail'
  have hnlen : ¬ row.length ≠ v.validators.length := by omega
  simp only [validateRow, validateRowS, if_neg hn, if_neg hnlen]
  simpa using hres

/-- Claim C5, witness: the amended theorem evaluated on a concrete row whose
field 1 fails while field 0 passes and is nonempty. -/
theorem first_failure_spec_witness : validateRow firstFailSet ["y", "x"] = .ok 1 := by
  have h := first_failure_spec firstFailSet ["y", "x"] 1 (by decide) (by decide)
    (by decide) (by decide) (by decide) (by decide)
  simpa using h

/-- Claim C6 (confirmed).  For every rule set other than "novalidate",
whenever the row length differs from the expected field count (strict
equality, either direction), `validateRow` returns RejectedShapeMismatch
(-2) regardless of field content; no field rule influences the result. -/
theorem shape_mismatch_spec (v : RuleSet) (row : List String)
    (hn : v.name ≠ "novalidate") (hlen : row.length ≠ v.validators.length) :
    validateRow v row = .ok (-2) := by
  simp [validateRow, validateRowS, hn, hlen]

/-- Claim C6, witness: a 1-field row under a 2-field rule set. -/
theorem shape_mismatch_spec_witness : validateRow pairSet ["a"] = .ok (-2) :=
  shape_mismatch_spec pairSet ["a"] (by decide) (by decide)

/-- Claim C7 (confirmed).  For a rule set named "novalidate", `validateRow`
returns Accepted (-1) immediately for every row and every state, with the
state untouched; and the header-column-count check of the runner always
passes for it. -/
theorem novalidate_spec (v : RuleSet) (hname : v.name = "novalidate") :
    (∀ (s : ValidatorState) (row : List String), validateRowS v s row = (s, .ok (-1))) ∧
    (∀ headerRow : List String, headerCountOk v headerRow = true) := by
  constructor
  · intro s row
    simp [validateRowS, hname]
  · intro headerRow
    simp [headerCountOk, hname]

/-- Claim C7, witness: the theorem evaluated on the configured novalidate
rule set, a malformed row, and a header of the wrong length. -/
theorem novalidate_spec_witness :
    validateRowS noValidateValidator initState ["a", "b"] = (initState, .ok (-1)) ∧
    headerCountOk noValidateValidator ["only"] = true :=
  ⟨(novalidate_spec noValidateValidator rfl).1 initState ["a", "b"],
   (novalidate_spec noValidateValidator rfl).2 ["only"]⟩

/-- Claim C8, counterexample.  `badKindSet` carries an unknown rule kind
"xyz" at position 1, yet construction does not reject it and a run over one
data row completes normally (the row is even classified, outcome 0, by the
rule at position 0); with a second row that reaches position 1 the run
aborts only then, after the first data row was fully processed — the abort
is not pre-run. -/
theorem unknown_kind_counterexample :
    (runRows badKindSet initState [["x", "y"]]).2 = ([0], none) ∧
    (runRows badKindSet initState [["x", "y"], ["a", "y"]]).2 =
      ([0], some "ERROR!! BAD Validator Typexyz") :=
  ⟨rfl, rfl⟩

/-- Claim C8, amended.  An unknown rule kind is fatal, but lazily: the
program exits with "ERROR!! BAD Validator Type..." the first time a field
governed by that rule is dispatched during row validation (a shape-correct
row reaching that position with all earlier fields passing and the empty
budget not exhausted), not before the run. -/
theorem unknown_kind_spec (v : RuleSet) (row : List String) (i : Nat) (fv : FieldValidator)
    (hn : v.name ≠ "novalidate") (hlen : row.length = v.validators.length)
    (hi : i < row.length)
    (hlookup : v.validators.lookup i = some fv)
    (hkind : fv.type ≠ "str" ∧ fv.type ≠ "re" ∧ fv.type ≠ "len" ∧ fv.type ≠ "aba")
    (hpass : ∀ k, k < i → validateField v k (pyStrip (row.getD k "")) = .ok true)
    (hbudget : ¬(1 ≤ countEmptyTrim (row.take i) ∧
                 maxEmptyFields v ≤ (countEmptyTrim (row.take i) : Int))) :
    validateRow v row = .error ("ERROR!! BAD Validator Type" ++ fv.type) := by
  have herr : validateField v (0 + i) (pyStrip (row.getD i "")) =
      .error ("ERROR!! BAD Validator Type" ++ fv.type) := by
    simp [validateField, hlookup, hkind.1, hkind.2.1, hkind.2.2.1, hkind.2.2.2]
  have hpass' : ∀ k, k < i → validateField v (0 + k) (pyStrip (row.getD k "")) = .ok true := by
    intro k hk
    simpa using hpass k hk
  have hbudget' : ¬(1 ≤ countEmptyTrim (row.take i) ∧
      maxEmptyFields v ≤ 0 + (countEmptyTrim (row.take i) : Int)) := by
    simpa using hbudget
  have hstop := (validateRowLoop_stops v row 0 0 initState i hi hpass' hbudget').1 _ herr
  have hnlen : ¬ row.length ≠ v.validators.length := by omega
  simp only [validateRow, validateRowS, if_neg hn, if_neg hnlen, hstop]

/-- Claim C8, witness: the amended theorem evaluated on a concrete row that
reaches the unknown-kind rule. -/
theorem unknown_kind_spec_witness :
    validateRow badKindSet ["a", "y"] =
      .error ("ERROR!! BAD Validator Type" ++ unknownKindValidator.type) :=
  unknown_kind_spec badKindSet ["a", "y"] 1 unknownKindValidator (by decide) (by decide)
    (by decide) rfl (by decide) (by decide) (by decide)

/-- Claim C9, counterexample.  Validating the all-empty row under
`oneFieldSet` increments `badFieldCounters` at position 0 from 0 to 1: row
validation mutates a component of the validator object other than
`fieldNames`, so `fieldNames` is not the only mutable state. -/
theorem mutation_counterexample :
    (validateRowS oneFieldSet initState [""]).1.badFieldCounters 0 = 1 ∧
    initState.badFieldCounters 0 = 0 ∧
    (validateRowS oneFieldSet initState [""]).2 = .ok 0 :=
  ⟨rfl, rfl, rfl⟩

/-- Claim C9, amended.  The mutable state of a validator consists of
`fieldNames` (written only by `getHeaderNames`, which never touches the
counters) and `badFieldCounters` (written only by `validateRow`):
`validateRow` never changes `fieldNames`, leaves the whole state unchanged
on Accepted, ShapeMismatch, TooManyEmptyFields and on an abort, and on
RejectedFieldFailed(i) changes exactly the counter of position `i`,
incrementing it by one. -/
theorem frame_spec (v : RuleSet) (s : ValidatorState) (row : List String)
    (s' : ValidatorState) (r : Except String Int)
    (h : validateRowS v s row = (s', r)) :
    s'.fieldNames = s.fieldNames ∧
    (∀ n : Int, r = .ok n → n < 0 → s' = s) ∧
    (∀ i : Nat, r = .ok ((i : Nat) : Int) →
      s'.badFieldCounters = fun j =>
        if j = i then s.badFieldCounters i + 1 else s.badFieldCounters j) ∧
    (∀ e : String, r = .error e → s' = s) ∧
    (∀ headerRow : List String,
      (getHeaderNames s headerRow).badFieldCounters = s.badFieldCounters) := by
  have hhdr : ∀ headerRow : List String,
      (getHeaderNames s headerRow).badFieldCounters = s.badFieldCounters := fun _ => rfl
  by_cases hn : v.name = "novalidate"
  · simp only [validateRowS, if_pos hn] at h
    injection h with hs hr
    subst hs
    refine ⟨rfl, fun n _ _ => rfl, ?_, ?_, hhdr⟩
    · intro i hok
      have hcon := hr.trans hok
      simp at hcon
    · intro e he
      have hcon := hr.trans he
      simp at hcon
  · by_cases hsh : row.length ≠ v.validators.length
    · simp only [validateRowS, if_neg hn, if_pos hsh] at h
      injection h with hs hr
      subst hs
      refine ⟨rfl, fun n _ _ => rfl, ?_, ?_, hhdr⟩
      · intro i hok
        have hcon := hr.trans hok
        simp at hcon
      · intro e he
        have hcon := hr.trans he
        simp at hcon
    · simp only [validateRowS, if_neg hn, if_neg hsh] at h
      obtain ⟨hf1, hf2, hf3, hf4⟩ := validateRowLoop_frame v row 0 0 s
      rw [h] at hf1 hf2 hf3 hf4
      exact ⟨hf1, hf2, hf3, hf4, hhdr⟩

/-- Claim C9, witness: the amended theorem evaluated on a concrete
validation, showing `fieldNames` unchanged. -/
theorem frame_spec_witness :
    (validateRowS oneFieldSet initState [""]).1.fieldNames = initState.fieldNames :=
  (frame_spec oneFieldSet initState [""] (validateRowS oneFieldSet initState [""]).1
    (validateRowS oneFieldSet initState [""]).2 rfl).1

/-- Claim C10 (confirmed).  A raw field that strips to empty but is itself
nonempty (whitespace only) can fail a rule whose `allowEmptyFields` is
false, and the rejected-row message built by the runner chooses between the
raw value and the literal "EMPTY" on the raw, untrimmed length, so such a
field is annotated with its raw whitespace content, not with "EMPTY". -/
theorem rejected_message_spec (v : RuleSet) (i : Nat) (fv : FieldValidator)
    (raw fieldName : String)
    (hlookup : v.validators.lookup i = some fv)
    (hkind : fv.type = "str" ∨ fv.type = "re" ∨ fv.type = "len" ∨ fv.type = "aba")
    (hae : fv.allowEmptyFields = false)
    (htrim : (pyStrip raw).length = 0) (hraw : 0 < raw.length) :
    validateField v i (pyStrip raw) = .ok false ∧
    fieldFailedMessage fieldName raw =
      "BAD DATA IN FIELD: " ++ fieldName ++ " VALUE: " ++ raw := by
  constructor
  · rcases hkind with h | h | h | h <;>
      simp [validateField, hlookup, h, validateString, validateRegex, validateLength,
            validateABAChecksum, htrim, hae]
  · simp [fieldFailedMessage, hraw]

/-- Claim C10, witness: the theorem evaluated on the field " " (one space)
under a string rule with `allowEmptyFields = false`. -/
theorem rejected_message_spec_witness :
    validateField oneFieldSet 0 (pyStrip " ") = .ok false ∧
    fieldFailedMessage "name" " " = "BAD DATA IN FIELD: " ++ "name" ++ " VALUE: " ++ " " :=
  rejected_message_spec oneFieldSet 0 strNoEmpty " " "name" rfl (Or.inl rfl) rfl
    (by decide) (by decide)
